import Mathlib

/-!
Shallow embedding of the face-analysis core of `backend/app/services/analysis.py`
(FaceAnalysisApp): dimension measurement, face-shape classification, skin-tone
and undertone estimation, overlay-zone generation, recommendation lookup and the
symmetry/jaw-definition insight computations.  Python floats are modelled as
real numbers; the landmark list is a `List (ℝ × ℝ)`; fallible code returns
`Except`.  Definitions are transcribed from the source; `spec_`-prefixed
definitions transcribe the natural-language specification instead, for the
refinement claims.
-/

namespace FaceAnalysis

noncomputable section

/-- The epsilon `1e-6` the source adds to denominators. -/
def eps : ℝ := 1e-6

/-- Result of `calculate_dimensions` (source lines 74–80). -/
structure FaceDimensions where
  forehead_width : ℝ
  cheekbone_width : ℝ
  jaw_width : ℝ
  face_length : ℝ
  jaw_angle : ℝ

/-- `classify_face` (analysis.py lines 83–116), transcribed branch for branch. -/
def classify_face (d : FaceDimensions) : String :=
  let width_avg := (d.forehead_width + d.cheekbone_width + d.jaw_width) / 3.0
  let length_ratio := d.face_length / (width_avg + eps)
  let cheek_to_jaw := d.cheekbone_width / (d.jaw_width + eps)
  let forehead_to_jaw := d.forehead_width / (d.jaw_width + eps)
  if length_ratio < 1.05 then
    if d.jaw_angle < Real.pi / 3.4 then "square"
    else if cheek_to_jaw > 1.05 then "heart"
    else "round"
  else if length_ratio ≥ 1.35 then
    if cheek_to_jaw > 1.1 ∧ forehead_to_jaw < 0.95 then "diamond"
    else "oblong"
  else if cheek_to_jaw > 1.15 then "heart"
  else if d.jaw_angle < Real.pi / 3.5 then "square"
  else if cheek_to_jaw > 1.05 ∧ forehead_to_jaw > 1.05 then "heart"
  else "oval"

/-- Transcription of the SPEC's decision tree (spec §4.2), with the ratio
definitions of the spec and the third branch guarded explicitly by
`1.05 ≤ length_ratio < 1.35` as the spec words it. -/
def spec_classify (d : FaceDimensions) : String :=
  let width_avg := (d.forehead_width + d.cheekbone_width + d.jaw_width) / 3.0
  let length_ratio := d.face_length / (width_avg + eps)
  let cheek_to_jaw := d.cheekbone_width / (d.jaw_width + eps)
  let forehead_to_jaw := d.forehead_width / (d.jaw_width + eps)
  if length_ratio < 1.05 then
    if d.jaw_angle < Real.pi / 3.4 then "square"
    else if cheek_to_jaw > 1.05 then "heart"
    else "round"
  else if length_ratio ≥ 1.35 then
    if cheek_to_jaw > 1.1 ∧ forehead_to_jaw < 0.95 then "diamond"
    else "oblong"
  else if 1.05 ≤ length_ratio ∧ length_ratio < 1.35 then
    if cheek_to_jaw > 1.15 then "heart"
    else if d.jaw_angle < Real.pi / 3.5 then "square"
    else if cheek_to_jaw > 1.05 ∧ forehead_to_jaw > 1.05 then "heart"
    else "oval"
  else "oval"

/-- Euclidean distance helper of `calculate_dimensions` (analysis.py lines
58–59): `np.linalg.norm(np.array(a) - np.array(b))` on 2D points. -/
def distance (a b : ℝ × ℝ) : ℝ :=
  Real.sqrt ((a.1 - b.1) ^ 2 + (a.2 - b.2) ^ 2)

/-- `calculate_dimensions` (lines 57–80).  Landmark access `points[i]` is
modelled with `getD`; the claims only concern lists holding every required
index, where `getD` agrees with the source's indexing. -/
def calculate_dimensions (points : List (ℝ × ℝ)) : FaceDimensions :=
  let p := fun i => points.getD i (0, 0)
  let forehead := distance (p 108) (p 338)
  let cheekbone := distance (p 234) (p 454)
  let jaw := distance (p 58) (p 288)
  let face_length := distance (p 10) (p 152)
  let jaw_left := p 172
  let chin := p 152
  let jaw_right := p 397
  let vl := (jaw_left.1 - chin.1, jaw_left.2 - chin.2)
  let vr := (jaw_right.1 - chin.1, jaw_right.2 - chin.2)
  let cosine := (vl.1 * vr.1 + vl.2 * vr.2) /
    (Real.sqrt (vl.1 ^ 2 + vl.2 ^ 2) * Real.sqrt (vr.1 ^ 2 + vr.2 ^ 2) + eps)
  let jaw_angle := Real.arccos (min 1.0 (max (-1.0) cosine))
  ⟨forehead, cheekbone, jaw, face_length, jaw_angle⟩

/-- One channel of the sRGB gamma decoding in `rgb_to_lab` (lines 156–157). -/
def gamma_correct (channel : ℝ) : ℝ :=
  if channel ≤ 0.04045 then channel / 12.92 else ((channel + 0.055) / 1.055) ^ (2.4 : ℝ)

/-- A CIE Lab triple, the result type of `rgb_to_lab`. -/
structure Lab where
  L : ℝ
  a : ℝ
  b : ℝ

/-- The XYZ→Lab nonlinearity `f` inside `rgb_to_lab` (lines 165–166). -/
def labF (component : ℝ) : ℝ :=
  if component > 0.008856 then component ^ ((1 : ℝ) / 3) else 7.787 * component + 16 / 116

/-- `rgb_to_lab` (lines 155–174) on a normalized `(r, g, b)` triple. -/
def rgb_to_lab (r g b : ℝ) : Lab :=
  let rl := gamma_correct r
  let gl := gamma_correct g
  let bl := gamma_correct b
  let x := (0.4124 * rl + 0.3576 * gl + 0.1805 * bl) / 0.95047
  let y := 0.2126 * rl + 0.7152 * gl + 0.0722 * bl
  let z := (0.0193 * rl + 0.1192 * gl + 0.9505 * bl) / 1.08883
  let fx := labF x
  let fy := labF y
  let fz := labF z
  ⟨116 * fy - 16, 500 * (fx - fy), 200 * (fy - fz)⟩

/-- The ITA computation of `analyze_skin_tone` (line 133):
`np.degrees(np.arctan((lab[0] - 50.0) / (lab[2] + 1e-6)))`. -/
def ita_of (lab : Lab) : ℝ :=
  Real.arctan ((lab.L - 50) / (lab.b + eps)) * (180 / Real.pi)

/-- The tone threshold chain of `analyze_skin_tone` (lines 134–143). -/
def tone_of_ita (ita : ℝ) : String :=
  if ita ≥ 55 then "very_light"
  else if ita ≥ 41 then "light"
  else if ita ≥ 28 then "medium"
  else if ita ≥ 10 then "tan"
  else "deep"

/-- The undertone rule of `analyze_skin_tone` (lines 145–150). -/
def undertone_of (lab : Lab) : String :=
  if lab.a < -2 ∧ lab.b < 10 then "cool"
  else if lab.b > 15 then "warm"
  else "neutral"

/-- The classification stage of `analyze_skin_tone` (lines 130–152) applied to
the averaged RGB triple: normalize by 255, convert to Lab, classify tone by
ITA and undertone by the a/b rule. -/
def classify_from_avg (avg : ℝ × ℝ × ℝ) : String × String :=
  let lab := rgb_to_lab (avg.1 / 255) (avg.2.1 / 255) (avg.2.2 / 255)
  (tone_of_ita (ita_of lab), undertone_of lab)

/-- The two domain error kinds of the pipeline (spec §7). -/
inductive AnalysisError where
  | NoFaceDetected
  | InsufficientSample
deriving DecidableEq

/-- The value assembled by `analyze_skin_tone` (line 152). -/
structure SkinToneOutcome where
  tone : String
  undertone : String
  sample_rgb : ℤ × ℤ × ℤ

/-- `analyze_skin_tone` (lines 119–152).  The cv2 rasterisation of the cheek
polygon is kept abstract: `mask` is the list of pixel coordinates the filled
polygon selects and `image` the pixel buffer, so `pixels = image[mask == 255]`
becomes `mask.map image`.  The raised `ValueError` becomes `Except.error
AnalysisError.InsufficientSample`; `int(v)` truncation of the (nonnegative)
averages is modelled with the floor. -/
def analyze_skin_tone (image : ℕ × ℕ → ℝ × ℝ × ℝ) (mask : List (ℕ × ℕ)) :
    Except AnalysisError SkinToneOutcome :=
  let pixels := mask.map image
  if pixels = [] then .error .InsufficientSample
  else
    let n : ℝ := pixels.length
    let avg_r := (pixels.map fun pixel => pixel.1).sum / n
    let avg_g := (pixels.map fun pixel => pixel.2.1).sum / n
    let avg_b := (pixels.map fun pixel => pixel.2.2).sum / n
    let tu := classify_from_avg (avg_r, avg_g, avg_b)
    .ok ⟨tu.1, tu.2, (⌊avg_r⌋, ⌊avg_g⌋, ⌊avg_b⌋)⟩

/-- Transcription of the SPEC's ITA formula (spec §4.3):
`ITA = degrees(atan((L−50)/(b+ε)))`. -/
def spec_ita (L b : ℝ) : ℝ :=
  Real.arctan ((L - 50) / (b + eps)) * (180 / Real.pi)

/-- Transcription of the SPEC's tone thresholds (spec §4.3):
`ITA≥55→very_light, ≥41→light, ≥28→medium, ≥10→tan, else→deep`. -/
def spec_tone_of_ita (ita : ℝ) : String :=
  if ita ≥ 55 then "very_light"
  else if ita ≥ 41 then "light"
  else if ita ≥ 28 then "medium"
  else if ita ≥ 10 then "tan"
  else "deep"

/-- Transcription of the SPEC's undertone rule (spec §4.3):
`a<−2 and b<10 → cool; b>15 → warm; else neutral`. -/
def spec_undertone (a b : ℝ) : String :=
  if a < -2 ∧ b < 10 then "cool"
  else if b > 15 then "warm"
  else "neutral"

/-- Order of the five tone buckets: deep < tan < medium < light < very_light. -/
def tone_rank (tone : String) : ℕ :=
  if tone = "deep" then 0
  else if tone = "tan" then 1
  else if tone = "medium" then 2
  else if tone = "light" then 3
  else 4

/-- `np.radians` used by `compute_jaw_definition` (line 421). -/
def radians (deg : ℝ) : ℝ :=
  deg * Real.pi / 180

/-- `compute_jaw_definition` (lines 419–422): normalize the jaw angle to the
25°–50° window, clamp to [0,1], score distance from the window midpoint. -/
def compute_jaw_definition (d : FaceDimensions) : ℝ :=
  let normalized := max 0 (min 1 ((d.jaw_angle - radians 25) / radians 25))
  1 - |normalized - 0.5|

/-- `min(xs)` over the landmark coordinate list in `generate_overlay`
(line 179); the `[]` default is never reached under the claims' non-empty
hypothesis. -/
def listMin : List ℝ → ℝ
  | [] => 0
  | a :: t => t.foldl min a

/-- `max(xs)` over the landmark coordinate list in `generate_overlay`. -/
def listMax : List ℝ → ℝ
  | [] => 0
  | a :: t => t.foldl max a

/-- The dictionary returned by `generate_overlay` (lines 240–243):
`bounding_box` as the four-element list `[min_x, min_y, max_x, max_y]` and the
zone dictionary as an association list in insertion order. -/
structure Overlay where
  bounding_box : List ℝ
  zones : List (String × List (ℝ × ℝ))

/-- `generate_overlay` (lines 177–243).  `make_zone` keeps the source's unused
`zone_type` argument; `ellipse` samples `degree = 30*k` for `k < 12` as
`range(0, 360, 30)` does, and `np.radians` is `radians`. -/
def generate_overlay (shape : String) (points : List (ℝ × ℝ)) : Overlay :=
  let xs := points.map Prod.fst
  let ys := points.map Prod.snd
  let min_x := listMin xs
  let max_x := listMax xs
  let min_y := listMin ys
  let max_y := listMax ys
  let make_zone := fun (_zone_type : String) (factor_y height inset : ℝ) =>
    let x1 := min_x + (max_x - min_x) * inset
    let x2 := max_x - (max_x - min_x) * inset
    let top := min_y + (max_y - min_y) * factor_y
    let bottom := top + (max_y - min_y) * height
    [(x1, bottom), (x1 + (max_x - min_x) * 0.05, top),
      (x2 - (max_x - min_x) * 0.05, top), (x2, bottom)]
  let ellipse := fun (center_y_factor width_factor height_factor : ℝ) =>
    let center_x := (min_x + max_x) / 2
    let center_y := min_y + (max_y - min_y) * center_y_factor
    let radius_x := (max_x - min_x) * width_factor / 2
    let radius_y := (max_y - min_y) * height_factor / 2
    (List.range 12).map fun k =>
      let degree : ℝ := (30 * k : ℕ)
      let rad := radians degree
      (center_x + Real.cos rad * radius_x, center_y + Real.sin rad * radius_y)
  let zones :=
    if shape = "round" then
      [("contour", make_zone "contour" 0.35 0.4 0.15),
        ("blush", ellipse 0.55 0.35 0.25), ("highlight", ellipse 0.4 0.2 0.2)]
    else if shape = "oval" then
      [("contour", make_zone "contour" 0.3 0.4 0.18),
        ("blush", ellipse 0.6 0.3 0.2), ("highlight", ellipse 0.38 0.2 0.18)]
    else if shape = "square" then
      [("contour", make_zone "contour" 0.3 0.5 0.1),
        ("blush", ellipse 0.58 0.32 0.18), ("highlight", ellipse 0.38 0.22 0.18)]
    else if shape = "heart" then
      [("contour", make_zone "contour" 0.25 0.45 0.12),
        ("blush", ellipse 0.55 0.28 0.18), ("highlight", ellipse 0.35 0.2 0.2)]
    else if shape = "oblong" then
      [("contour", make_zone "contour" 0.25 0.5 0.18),
        ("blush", ellipse 0.6 0.28 0.18), ("highlight", ellipse 0.42 0.22 0.18)]
    else
      [("contour", make_zone "contour" 0.28 0.45 0.1),
        ("blush", ellipse 0.55 0.32 0.2), ("highlight", ellipse 0.36 0.2 0.18)]
  ⟨[min_x, min_y, max_x, max_y], zones⟩

/-- The warm shade palette of `build_recommendations` (lines 249–253). -/
def warm_palette : List (String × List String) :=
  [("blush", ["Peach", "Apricot", "Warm coral"]),
    ("eyes", ["Bronze", "Warm taupe", "Olive green"]),
    ("lips", ["Terracotta", "Warm nude", "Rust red"])]

/-- The cool shade palette of `build_recommendations` (lines 254–258). -/
def cool_palette : List (String × List String) :=
  [("blush", ["Rose", "Soft berry", "Cool pink"]),
    ("eyes", ["Plum", "Soft grey", "Slate blue"]),
    ("lips", ["Berry", "Cool mauve", "Blue-based red"])]

/-- The neutral shade palette of `build_recommendations` (lines 259–263). -/
def neutral_palette : List (String × List String) :=
  [("blush", ["Dusty rose", "Neutral coral", "Soft mauve"]),
    ("eyes", ["Champagne", "Neutral brown", "Soft copper"]),
    ("lips", ["Rosewood", "Balanced nude", "Classic red"])]

/-- `shade_palette` inside `build_recommendations` (lines 247–265):
`palettes.get(undertone, palettes["neutral"])[category]`. -/
def shade_palette (undertone category : String) : List String :=
  let palette :=
    if undertone = "warm" then warm_palette
    else if undertone = "cool" then cool_palette
    else neutral_palette
  (palette.lookup category).getD []

/-- A per-shape guidance entry of the `shape_guidance` table (lines 267–298). -/
structure ShapeGuidance where
  blush : String
  contour : String
  highlight : String

/-- The `shape_guidance` lookup `shape_guidance.get(shape, shape_guidance["oval"])`
(lines 267–300): the six-shape table with the oval entry as default. -/
def shape_guidance (shape : String) : ShapeGuidance :=
  if shape = "round" then
    ⟨"Sweep blush above the apples and pull back toward temples.",
      "Contour beneath cheekbones and jawline for definition.",
      "Highlight center of forehead, nose bridge, and chin."⟩
  else if shape = "oval" then
    ⟨"Apply to apples and blend outward along cheekbones.",
      "Light contour under cheekbones and temples.",
      "Highlight cheekbone tops, brow bone, and cupid\x27s bow."⟩
  else if shape = "square" then
    ⟨"Focus on cheek centers and blend softly to diffuse angles.",
      "Soften jawline and outer forehead, blending well.",
      "Highlight center of face and cheekbone peaks."⟩
  else if shape = "heart" then
    ⟨"Place blush lower on cheeks and blend upward.",
      "Shade sides of forehead and lightly under cheekbones.",
      "Highlight cheekbones and cupid\x27s bow subtly on forehead."⟩
  else if shape = "oblong" then
    ⟨"Apply horizontally across cheeks to add width.",
      "Contour forehead top and chin to shorten appearance.",
      "Highlight cheekbones and cupid\x27s bow, skip chin."⟩
  else if shape = "diamond" then
    ⟨"Tap blush on apples and curve outward to soften cheekbones.",
      "Contour under cheekbones tapering toward temples.",
      "Highlight forehead center, nose bridge, and chin."⟩
  else
    ⟨"Apply to apples and blend outward along cheekbones.",
      "Light contour under cheekbones and temples.",
      "Highlight cheekbone tops, brow bone, and cupid\x27s bow."⟩

/-- One entry of the recommendation dictionary: `details` together with either
`suggested_shades` or `suggested_finishes` (lines 302–323). -/
inductive RecEntry where
  | shades (details : String) (suggested_shades : List String)
  | finishes (details : String) (suggested_finishes : List String)
deriving DecidableEq

/-- `build_recommendations` (lines 246–323), as an association list in the
source's insertion order. -/
def build_recommendations (shape undertone : String) : List (String × RecEntry) :=
  let base := shape_guidance shape
  [("blush", .shades base.blush (shade_palette undertone "blush")),
    ("contour", .finishes base.contour
      ["Soft matte stick", "Sheer cream", "Buildable powder"]),
    ("highlight", .finishes base.highlight
      ["Cream luminizer", "Soft pearl powder", "Liquid glow"]),
    ("eyes", .shades
      "Choose shades that complement your undertone and layer from matte to shimmer."
      (shade_palette undertone "eyes")),
    ("lips", .shades
      "Match lip families to undertone; adjust intensity for day or night looks."
      (shade_palette undertone "lips"))]

/-- The record returned by `compute_symmetry` (lines 398–403). -/
structure SymmetryResult where
  score : ℝ
  description : String
  guidance : String
  eye_delta : ℝ

/-- `compute_symmetry` (lines 356–403).  `point(idx) or fallback` — an
index-guarded lookup with a fallback point — is `List.getD`.  Since
`width ≥ 1e-6 > 0`, `np.arctan2(eye_delta, width)` equals
`arctan (eye_delta / width)` on every reachable input, which is how the
eye-alignment angle is embedded; `np.degrees` multiplies by `180/π`. -/
def compute_symmetry (points : List (ℝ × ℝ)) (bounding_box : ℝ × ℝ × ℝ × ℝ) :
    SymmetryResult :=
  let min_x := bounding_box.1
  let min_y := bounding_box.2.1
  let max_x := bounding_box.2.2.1
  let max_y := bounding_box.2.2.2
  let height := max (max_y - min_y) eps
  let width := max (max_x - min_x) eps
  let mid_x := (min_x + max_x) / 2
  let point := fun (idx : ℕ) (fallback : ℝ × ℝ) => points.getD idx fallback
  let nose := point 1 (mid_x, (min_y + max_y) / 2)
  let left_cheek := point 234 (min_x, (min_y + max_y) / 2)
  let right_cheek := point 454 (max_x, (min_y + max_y) / 2)
  let left_dist := distance left_cheek nose
  let right_dist := distance right_cheek nose
  let max_dist := max left_dist (max right_dist eps)
  let balance_delta := |left_dist - right_dist| / max_dist
  let symmetry_score := max 0 (1 - min 1 balance_delta)
  let description :=
    if symmetry_score ≥ 0.9 then
      "Highly balanced proportions across both sides of the face."
    else if symmetry_score ≥ 0.75 then
      "Soft asymmetric accents add character and are easy to balance."
    else
      "Cheek widths vary more noticeably; thoughtful contour can even things out."
  let guidance :=
    if symmetry_score ≥ 0.85 then
      "Mirror highlight and blush placement to emphasize your natural balance."
    else if symmetry_score ≥ 0.65 then
      "Concentrate highlight on the higher cheekbone and blend contour upward on the fuller side."
    else
      "Use diagonal blush placement and tapered contour strokes to visually lift the softer side."
  let left_eye := point 159 (min_x, nose.2)
  let right_eye := point 386 (max_x, nose.2)
  let eye_delta := |left_eye.2 - right_eye.2|
  let eye_alignment_degrees := Real.arctan (eye_delta / width) * (180 / Real.pi)
  ⟨symmetry_score, description, guidance, eye_alignment_degrees⟩

end

/-- C1: `classify_face` computes the four derived ratios with epsilon-guarded
denominators and returns the shape chosen by the spec's decision tree in its
exact order with its exact thresholds; the concrete scenario
{forehead=130, cheekbone=150, jaw=120, length=200, jaw_angle=1.5} classifies
as "oblong". -/
theorem classify_face_follows_spec_tree :
    (∀ d : FaceDimensions, classify_face d = spec_classify d) ∧
    classify_face ⟨130, 150, 120, 200, 1.5⟩ = "oblong" := by
  constructor
  · intro d
    simp only [classify_face, spec_classify]
    split_ifs <;> first
      | rfl
      | (exfalso; push_neg at *; simp_all; try linarith)
  · norm_num [classify_face, eps]

/-- C2: for every averaged cheek RGB value, the classification stage of
`analyze_skin_tone` assigns the tone bucket of the spec's ITA formula and
thresholds and the undertone of the spec's a/b rule, with (L,a,b) obtained by
the sRGB→XYZ→Lab conversion of the average RGB normalized to [0,1]. -/
theorem skin_classification_follows_spec :
    ∀ r g b : ℝ,
      classify_from_avg (r, g, b) =
        ((spec_tone_of_ita (spec_ita (rgb_to_lab (r / 255) (g / 255) (b / 255)).L
            (rgb_to_lab (r / 255) (g / 255) (b / 255)).b)),
          spec_undertone (rgb_to_lab (r / 255) (g / 255) (b / 255)).a
            (rgb_to_lab (r / 255) (g / 255) (b / 255)).b) := by
  intro r g b
  rfl

/-- C3: `analyze_skin_tone` fails with the insufficient-sample error exactly
when the cheek-polygon mask selects zero pixels, and in every other case it
returns a result without error. -/
theorem analyze_skin_tone_error_iff_empty_mask :
    ∀ (image : ℕ × ℕ → ℝ × ℝ × ℝ) (mask : List (ℕ × ℕ)),
      (analyze_skin_tone image mask = Except.error AnalysisError.InsufficientSample ↔
        mask = []) ∧
      (mask ≠ [] → ∃ r, analyze_skin_tone image mask = Except.ok r) := by
  intro image mask
  by_cases hm : mask = []
  · subst hm
    simp [analyze_skin_tone]
  · have hpix : mask.map image ≠ [] := by
      simpa [List.map_eq_nil_iff] using hm
    refine ⟨⟨fun h => ?_, fun h => absurd h hm⟩, fun _ => ?_⟩
    · exfalso
      rw [analyze_skin_tone, if_neg hpix] at h
      exact Except.noConfusion h
    · exact ⟨_, by rw [analyze_skin_tone, if_neg hpix]⟩

/-- C3 witness: with a one-pixel mask the analyzer succeeds and does not
report the insufficient-sample error. -/
theorem analyze_skin_tone_error_iff_empty_mask_witness :
    (analyze_skin_tone (fun _ => (0, 0, 0)) [(0, 0)] =
        Except.error AnalysisError.InsufficientSample ↔ ([(0, 0)] : List (ℕ × ℕ)) = []) ∧
      (([(0, 0)] : List (ℕ × ℕ)) ≠ [] →
        ∃ r, analyze_skin_tone (fun _ => (0, 0, 0)) [(0, 0)] = Except.ok r) :=
  analyze_skin_tone_error_iff_empty_mask (fun _ => (0, 0, 0)) [(0, 0)]

/-- C5: for every landmark set holding all required indices,
`calculate_dimensions` returns a value whose four width/length fields are
non-negative and whose jaw angle lies in [0, π], thanks to the clamp on the
cosine argument and the epsilon on the denominator. -/
theorem calculate_dimensions_ranges :
    ∀ points : List (ℝ × ℝ), 455 ≤ points.length →
      0 ≤ (calculate_dimensions points).forehead_width ∧
      0 ≤ (calculate_dimensions points).cheekbone_width ∧
      0 ≤ (calculate_dimensions points).jaw_width ∧
      0 ≤ (calculate_dimensions points).face_length ∧
      0 ≤ (calculate_dimensions points).jaw_angle ∧
      (calculate_dimensions points).jaw_angle ≤ Real.pi := by
  intro points _
  simp only [calculate_dimensions, distance]
  exact ⟨Real.sqrt_nonneg _, Real.sqrt_nonneg _, Real.sqrt_nonneg _, Real.sqrt_nonneg _,
    Real.arccos_nonneg _, Real.arccos_le_pi _⟩

/-- C5 witness: a concrete 455-point landmark list satisfies the hypothesis
and the bounds. -/
theorem calculate_dimensions_ranges_witness :
    455 ≤ (List.replicate 455 ((0 : ℝ), (0 : ℝ))).length ∧
      (0 ≤ (calculate_dimensions (List.replicate 455 ((0 : ℝ), (0 : ℝ)))).forehead_width ∧
        0 ≤ (calculate_dimensions (List.replicate 455 ((0 : ℝ), (0 : ℝ)))).cheekbone_width ∧
        0 ≤ (calculate_dimensions (List.replicate 455 ((0 : ℝ), (0 : ℝ)))).jaw_width ∧
        0 ≤ (calculate_dimensions (List.replicate 455 ((0 : ℝ), (0 : ℝ)))).face_length ∧
        0 ≤ (calculate_dimensions (List.replicate 455 ((0 : ℝ), (0 : ℝ)))).jaw_angle ∧
        (calculate_dimensions (List.replicate 455 ((0 : ℝ), (0 : ℝ)))).jaw_angle ≤ Real.pi) :=
  ⟨by rw [List.length_replicate], calculate_dimensions_ranges _ (by rw [List.length_replicate])⟩

/-- C9: the tone classification is monotone in ITA: a larger ITA value never
receives a bucket below the bucket of a smaller ITA value, under the order
deep < tan < medium < light < very_light. -/
theorem tone_of_ita_monotone :
    ∀ ita1 ita2 : ℝ, ita1 ≤ ita2 →
      tone_rank (tone_of_ita ita1) ≤ tone_rank (tone_of_ita ita2) := by
  intro ita1 ita2 h
  unfold tone_of_ita
  split_ifs <;> first
    | (exfalso; linarith)
    | simp [tone_rank]

/-- C9 witness: the monotonicity theorem applied at ITA values 20 ≤ 45. -/
theorem tone_of_ita_monotone_witness :
    (20 : ℝ) ≤ 45 ∧ tone_rank (tone_of_ita 20) ≤ tone_rank (tone_of_ita 45) :=
  ⟨by norm_num, tone_of_ita_monotone 20 45 (by norm_num)⟩

/-- C10: `compute_jaw_definition` always returns a value in [0.5, 1]: the
normalized jaw angle is clamped to [0,1], so its distance from the midpoint
0.5 is at most 0.5. -/
theorem compute_jaw_definition_range :
    ∀ d : FaceDimensions,
      0.5 ≤ compute_jaw_definition d ∧ compute_jaw_definition d ≤ 1 := by
  intro d
  simp only [compute_jaw_definition]
  set n := max (0 : ℝ) (min 1 ((d.jaw_angle - radians 25) / radians 25)) with hn
  have h0 : (0 : ℝ) ≤ n := le_max_left _ _
  have h1 : n ≤ 1 := by
    rw [hn]
    exact max_le (by norm_num) (min_le_left _ _)
  have habs : |n - 0.5| ≤ 0.5 := abs_le.mpr ⟨by linarith, by linarith⟩
  have hnn : 0 ≤ |n - 0.5| := abs_nonneg _
  constructor <;> linarith

/-- Folding `min` over a list only decreases the accumulator. -/
theorem foldl_min_le (t : List ℝ) : ∀ a : ℝ, t.foldl min a ≤ a := by
  induction t with
  | nil => intro a; exact le_rfl
  | cons b t ih =>
    intro a
    calc (b :: t).foldl min a = t.foldl min (min a b) := rfl
    _ ≤ min a b := ih _
    _ ≤ a := min_le_left _ _

/-- Folding `max` over a list only increases the accumulator. -/
theorem le_foldl_max (t : List ℝ) : ∀ a : ℝ, a ≤ t.foldl max a := by
  induction t with
  | nil => intro a; exact le_rfl
  | cons b t ih =>
    intro a
    calc a ≤ max a b := le_max_left _ _
    _ ≤ t.foldl max (max a b) := ih _
    _ = (b :: t).foldl max a := rfl

/-- On a non-empty list the running minimum is at most the running maximum. -/
theorem listMin_le_listMax (l : List ℝ) (h : l ≠ []) : listMin l ≤ listMax l := by
  match l, h with
  | a :: t, _ =>
    calc listMin (a :: t) = t.foldl min a := rfl
    _ ≤ a := foldl_min_le t a
    _ ≤ t.foldl max a := le_foldl_max t a
    _ = listMax (a :: t) := rfl

/-- C4: for every shape value and non-empty landmark set, `generate_overlay`
returns exactly the three zones "contour", "blush" and "highlight", all
non-empty — a 4-point trapezoid and two 12-point ellipses — and an unknown
shape value produces the very overlay of the "diamond" parameter set. -/
theorem generate_overlay_zone_shapes :
    ∀ (shape : String) (points : List (ℝ × ℝ)), points ≠ [] →
      (∃ c bl hl : List (ℝ × ℝ),
        (generate_overlay shape points).zones =
          [("contour", c), ("blush", bl), ("highlight", hl)] ∧
        c.length = 4 ∧ bl.length = 12 ∧ hl.length = 12 ∧
        c ≠ [] ∧ bl ≠ [] ∧ hl ≠ []) ∧
      (shape ∉ (["round", "oval", "square", "heart", "oblong", "diamond"] : List String) →
        generate_overlay shape points = generate_overlay "diamond" points) := by
  intro shape points _
  constructor
  · simp only [generate_overlay]
    split_ifs <;>
      exact ⟨_, _, _, rfl, rfl,
        by rw [List.length_map, List.length_range],
        by rw [List.length_map, List.length_range],
        by simp,
        by simp only [ne_eq, List.map_eq_nil_iff, List.range_eq_nil]; norm_num,
        by simp only [ne_eq, List.map_eq_nil_iff, List.range_eq_nil]; norm_num⟩
  · intro h
    simp only [List.mem_cons, List.mem_singleton, not_or] at h
    obtain ⟨h1, h2, h3, h4, h5, -⟩ := h
    simp only [generate_overlay, if_neg h1, if_neg h2, if_neg h3, if_neg h4, if_neg h5,
      if_neg (show ¬("diamond" = "round") from by decide),
      if_neg (show ¬("diamond" = "oval") from by decide),
      if_neg (show ¬("diamond" = "square") from by decide),
      if_neg (show ¬("diamond" = "heart") from by decide),
      if_neg (show ¬("diamond" = "oblong") from by decide)]

/-- C4 witness: an unrecognized shape value on a concrete two-point landmark
set produces the three expected zones and the diamond overlay. -/
theorem generate_overlay_zone_shapes_witness :
    (∃ c bl hl : List (ℝ × ℝ),
      (generate_overlay "mystery" [(0, 0), (2, 3)]).zones =
        [("contour", c), ("blush", bl), ("highlight", hl)] ∧
      c.length = 4 ∧ bl.length = 12 ∧ hl.length = 12 ∧
      c ≠ [] ∧ bl ≠ [] ∧ hl ≠ []) ∧
    generate_overlay "mystery" [(0, 0), (2, 3)] =
      generate_overlay "diamond" [(0, 0), (2, 3)] := by
  have h := generate_overlay_zone_shapes "mystery" [(0, 0), (2, 3)] (by simp)
  exact ⟨h.1, h.2 (by decide)⟩

/-- C6: for every landmark list and every bounding box with ordered
coordinates, `compute_symmetry` returns a symmetry score in [0, 1] and a
non-negative eye-alignment angle in degrees — in particular also on short
lists where the box-center and box-edge fallback points are used. -/
theorem compute_symmetry_score_range :
    ∀ (points : List (ℝ × ℝ)) (box : ℝ × ℝ × ℝ × ℝ),
      box.1 ≤ box.2.2.1 → box.2.1 ≤ box.2.2.2 →
      0 ≤ (compute_symmetry points box).score ∧
      (compute_symmetry points box).score ≤ 1 ∧
      0 ≤ (compute_symmetry points box).eye_delta := by
  intro points box _ _
  have h0 : (0 : ℝ) ≤ eps := by norm_num [eps]
  simp only [compute_symmetry]
  refine ⟨le_max_left _ _, max_le (by norm_num) ?_, ?_⟩
  · rw [sub_le_self_iff]
    refine le_min (by norm_num) (div_nonneg (abs_nonneg _) ?_)
    exact le_trans h0 (le_trans (le_max_right _ _) (le_max_right _ _))
  · refine mul_nonneg ?_ (by positivity)
    refine le_trans (le_of_eq Real.arctan_zero.symm) (Real.arctan_strictMono.monotone ?_)
    exact div_nonneg (abs_nonneg _) (le_trans h0 (le_max_right _ _))

/-- C6 witness: the bounds hold on the empty landmark list — every fallback
point is used — with the ordered box (0, 0, 1, 2). -/
theorem compute_symmetry_score_range_witness :
    ((0 : ℝ), (0 : ℝ), (1 : ℝ), (2 : ℝ)).1 ≤ ((0 : ℝ), (0 : ℝ), (1 : ℝ), (2 : ℝ)).2.2.1 ∧
    0 ≤ (compute_symmetry [] ((0 : ℝ), (0 : ℝ), (1 : ℝ), (2 : ℝ))).score ∧
    (compute_symmetry [] ((0 : ℝ), (0 : ℝ), (1 : ℝ), (2 : ℝ))).score ≤ 1 ∧
    0 ≤ (compute_symmetry [] ((0 : ℝ), (0 : ℝ), (1 : ℝ), (2 : ℝ))).eye_delta := by
  have h := compute_symmetry_score_range [] ((0 : ℝ), (0 : ℝ), (1 : ℝ), (2 : ℝ))
    (by norm_num) (by norm_num)
  exact ⟨by norm_num, h.1, h.2.1, h.2.2⟩

/-- C7: for every shape and non-empty landmark set, the bounding box computed
by `generate_overlay` satisfies min_x ≤ max_x and min_y ≤ max_y. -/
theorem generate_overlay_bbox_ordered :
    ∀ (shape : String) (points : List (ℝ × ℝ)), points ≠ [] →
      (generate_overlay shape points).bounding_box.getD 0 0 ≤
        (generate_overlay shape points).bounding_box.getD 2 0 ∧
      (generate_overlay shape points).bounding_box.getD 1 0 ≤
        (generate_overlay shape points).bounding_box.getD 3 0 := by
  intro shape points h
  have hx : points.map Prod.fst ≠ [] := by simpa [List.map_eq_nil_iff] using h
  have hy : points.map Prod.snd ≠ [] := by simpa [List.map_eq_nil_iff] using h
  simp only [generate_overlay, List.getD]
  constructor
  · simpa using listMin_le_listMax _ hx
  · simpa using listMin_le_listMax _ hy

/-- C7 witness: the bounding box of a concrete one-point landmark set is
ordered. -/
theorem generate_overlay_bbox_ordered_witness :
    (generate_overlay "round" [(1, 2)]).bounding_box.getD 0 0 ≤
      (generate_overlay "round" [(1, 2)]).bounding_box.getD 2 0 ∧
    (generate_overlay "round" [(1, 2)]).bounding_box.getD 1 0 ≤
      (generate_overlay "round" [(1, 2)]).bounding_box.getD 3 0 :=
  generate_overlay_bbox_ordered "round" [(1, 2)] (by simp)

/-- C8: `build_recommendations` always returns the five categories blush,
contour, highlight, eyes and lips in order; an unknown shape uses the oval
guidance, an unknown undertone the neutral palette, and the contour and
highlight entries carry the fixed finish lists independent of undertone. -/
theorem build_recommendations_categories :
    ∀ shape undertone : String,
      (build_recommendations shape undertone).map Prod.fst =
        ["blush", "contour", "highlight", "eyes", "lips"] ∧
      (shape ∉ (["round", "oval", "square", "heart", "oblong", "diamond"] : List String) →
        build_recommendations shape undertone = build_recommendations "oval" undertone) ∧
      (undertone ∉ (["warm", "cool", "neutral"] : List String) →
        build_recommendations shape undertone = build_recommendations shape "neutral") ∧
      (build_recommendations shape undertone).lookup "contour" =
        some (.finishes (shape_guidance shape).contour
          ["Soft matte stick", "Sheer cream", "Buildable powder"]) ∧
      (build_recommendations shape undertone).lookup "highlight" =
        some (.finishes (shape_guidance shape).highlight
          ["Cream luminizer", "Soft pearl powder", "Liquid glow"]) := by
  intro shape undertone
  refine ⟨rfl, fun h => ?_, fun h => ?_, rfl, rfl⟩
  · simp only [List.mem_cons, List.mem_singleton, not_or] at h
    obtain ⟨h1, h2, h3, h4, h5, h6, -⟩ := h
    have hg : shape_guidance shape = shape_guidance "oval" := by
      simp only [shape_guidance, if_neg h1, if_neg h2, if_neg h3, if_neg h4, if_neg h5,
        if_neg h6, if_neg (show ¬("oval" = "round") from by decide), if_true]
    simp only [build_recommendations, hg]
  · simp only [List.mem_cons, List.mem_singleton, not_or] at h
    obtain ⟨h1, h2, -⟩ := h
    have hp : ∀ category, shade_palette undertone category = shade_palette "neutral" category := by
      intro category
      simp only [shade_palette, if_neg h1, if_neg h2,
        if_neg (show ¬("neutral" = "warm") from by decide),
        if_neg (show ¬("neutral" = "cool") from by decide)]
    simp only [build_recommendations, hp]

/-- C8 witness: at an unknown shape and unknown undertone the category list is
fixed and both fallbacks fire. -/
theorem build_recommendations_categories_witness :
    (build_recommendations "blob" "fizzy").map Prod.fst =
      ["blush", "contour", "highlight", "eyes", "lips"] ∧
    build_recommendations "blob" "fizzy" = build_recommendations "oval" "fizzy" ∧
    build_recommendations "blob" "fizzy" = build_recommendations "blob" "neutral" := by
  have h := build_recommendations_categories "blob" "fizzy"
  exact ⟨h.1, h.2.1 (by decide), h.2.2.1 (by decide)⟩

end FaceAnalysis
